import Mathlib

/-!
Verification of the surface-tracking and placement loop of the WebXR
hit-test demo (`src/main.ts`).

The embedding translates the core event handlers of `activateXR`:

* the per-frame callback `onXRFrame` (lines 131-181), which queries the
  frame's hit-test results and updates the reticle,
* the `select` handler (lines 119-129), which clones the loaded model at
  the reticle's position and registers it with the scene,
* the `end` handler (lines 183-187), which only logs and restores the DOM
  button (it installs no guard on the other handlers),
* the two asynchronous `gltfLoader.load` completion callbacks
  (lines 99-107 and 111-115) which set `reticle` and `model`.

Pose coordinates are only ever copied, never computed with, so their
components are modelled as integers; the copy semantics is unchanged.
Rendering, camera updates, the WebGL framebuffer and the DOM message are
external collaborators with no bearing on the tracked state and are not
modelled; `reticle.updateMatrixWorld(true)` and `model.scale.set` are
derived-graphics bookkeeping with no effect on the fields the handlers
read, and are likewise omitted.
-/

/-- A 3D position, as in `THREE.Vector3` (components only ever copied). -/
structure Vec3 where
  x : Int
  y : Int
  z : Int
deriving DecidableEq, Repr

/-- An orientation quaternion, as in `THREE.Quaternion`. -/
structure Quat where
  x : Int
  y : Int
  z : Int
  w : Int
deriving DecidableEq, Repr

/-- A rigid pose, as in `XRRigidTransform`: position plus orientation. -/
structure XRRigidTransform where
  position : Vec3
  orientation : Quat
deriving DecidableEq, Repr

/-- The fields of a `THREE.Object3D` that the handlers in `src/main.ts`
read or write: the `visible` flag, the `position` vector and the
`quaternion`. -/
structure Object3D where
  visible : Bool
  position : Vec3
  quaternion : Quat
deriving DecidableEq, Repr

/-- The observability events the handlers emit via `console.log`:
surface detected (line 155), surface lost (line 169), object placed with
its position and the new total (line 125), session ended (line 184). -/
inductive LogEvent where
  | surfaceAcquired
  | surfaceLost
  | objectPlaced (pos : Vec3) (total : Nat)
  | sessionEnded
deriving DecidableEq, Repr

/-- One entry of the scene registry (`scene.add` calls made by the
handlers). The reticle is added by reference (line 104): the scene shows
the live marker object. A placed clone is an independent object
(line 123): it is held by value. -/
inductive SceneEntry where
  | reticleRef
  | placed (o : Object3D)
deriving DecidableEq, Repr

/-- The state the handlers of `activateXR` close over: the reticle and
model (null until their asynchronous loads complete), the
`objectsPlaced` counter, the scene-registry additions, whether
`requestHitTestSource` yielded a source, and the emitted log events.
`ended` is ghost state recording that the `end` event fired: the source
handler (lines 183-187) only logs and touches the DOM, and no other
handler consults any such flag. -/
structure CoreState where
  reticle : Option Object3D
  model : Option Object3D
  objectsPlaced : Nat
  scene : List SceneEntry
  hitTestSource : Bool
  ended : Bool
  events : List LogEvent
deriving DecidableEq, Repr

/-- What a frame's hit-test query yields at lines 150-153:
`getHitTestResults` returns an empty list, or a nonempty list whose first
result's `getPose(referenceSpace)` is null (`unresolvedPose`), or a
nonempty list whose first result resolves to a pose. -/
inductive HitTestOutcome where
  | empty
  | unresolvedPose
  | resolved (pose : XRRigidTransform)
deriving DecidableEq, Repr

/-- The per-frame data `onXRFrame` reads from the platform: whether
`getViewerPose` returned a pose (line 139), whether `baseLayer` and
`getViewport` are available (lines 142-145), and the hit-test outcome. -/
structure XRFrameData where
  viewerPose : Bool
  baseLayer : Bool
  viewport : Bool
  hit : HitTestOutcome
deriving DecidableEq, Repr

/-- The `onXRFrame` callback, lines 131-181 of `src/main.ts`, restricted
to its effect on `CoreState`. If the viewer pose, base layer or viewport
is missing the function returns early; otherwise, when a hit-test source
exists: a resolved hit with the reticle loaded logs "Surface detected"
when the reticle was invisible, makes it visible and copies the hit
pose's position (only the position: lines 160-164); an empty result list
with the reticle loaded logs "Surface lost" when it was visible and
hides it (line 171); a nonempty list whose pose does not resolve changes
nothing (the inner `if (hitPose)` has no else branch). -/
def onXRFrame (s : CoreState) (f : XRFrameData) : CoreState :=
  if f.viewerPose then
    if f.baseLayer then
      if f.viewport then
        if s.hitTestSource then
          match f.hit, s.reticle with
          | HitTestOutcome.resolved pose, some r =>
              { s with
                reticle := some { r with visible := true,
                                         position := pose.position },
                events := s.events ++
                  (if r.visible then [] else [LogEvent.surfaceAcquired]) }
          | HitTestOutcome.resolved _, none => s
          | HitTestOutcome.unresolvedPose, _ => s
          | HitTestOutcome.empty, some r =>
              { s with
                reticle := some { r with visible := false },
                events := s.events ++
                  (if r.visible then [LogEvent.surfaceLost] else []) }
          | HitTestOutcome.empty, none => s
        else s
      else s
    else s
  else s

/-- The frame the platform delivers when the hit-test query cleanly
yields a surface estimate or none: this is the spec-level input
`SurfaceEstimate | none` of `onFrame(e)`. -/
def estimateFrame (e : Option XRRigidTransform) : XRFrameData :=
  { viewerPose := true, baseLayer := true, viewport := true,
    hit := match e with
           | some t => HitTestOutcome.resolved t
           | none => HitTestOutcome.empty }

/-- The spec-level operation `onFrame(estimate)`: `onXRFrame` on a frame
whose hit-test query produced the given estimate (or none). -/
def onFrame (s : CoreState) (e : Option XRRigidTransform) : CoreState :=
  onXRFrame s (estimateFrame e)

/-- The `select` handler, lines 119-129 of `src/main.ts`. When the model
and the reticle are both loaded and the reticle is visible: clone the
model, copy the reticle's position into the clone (only the position,
line 122; the clone keeps the model's own orientation), add the clone to
the scene, increment `objectsPlaced` and log the placement. Otherwise
nothing at all happens. -/
def onSelect (s : CoreState) : CoreState :=
  match s.model, s.reticle with
  | some m, some r =>
      if r.visible then
        { s with
          scene := s.scene ++ [SceneEntry.placed { m with position := r.position }],
          objectsPlaced := s.objectsPlaced + 1,
          events := s.events ++
            [LogEvent.objectPlaced r.position (s.objectsPlaced + 1)] }
      else s
  | _, _ => s

/-- The `end` handler, lines 183-187 of `src/main.ts`: it logs
"AR session ended", sets the DOM message and re-enables the button. It
writes no flag that `onXRFrame` or `onSelect` reads; the ghost field
`ended` records receipt of the signal. -/
def endHandler (s : CoreState) : CoreState :=
  { s with ended := true, events := s.events ++ [LogEvent.sessionEnded] }

/-- The reticle `gltfLoader.load` completion callback, lines 101-106:
store the loaded scene as the reticle, invisible, and add it (by
reference) to the scene. -/
def loadReticle (s : CoreState) (g : Object3D) : CoreState :=
  { s with reticle := some { g with visible := false },
           scene := s.scene ++ [SceneEntry.reticleRef] }

/-- The model `gltfLoader.load` completion callback, lines 111-115:
store the loaded scene as the template (its `scale.set` does not touch
any field the handlers read). -/
def loadModel (s : CoreState) (g : Object3D) : CoreState :=
  { s with model := some g }

/-- One externally-driven event of the loop. -/
inductive Op where
  | frame (f : XRFrameData)
  | select
  | sessionEnd
  | reticleLoaded (g : Object3D)
  | modelLoaded (g : Object3D)
deriving DecidableEq, Repr

/-- Dispatch one event to its handler. -/
def step (s : CoreState) : Op → CoreState
  | Op.frame f => onXRFrame s f
  | Op.select => onSelect s
  | Op.sessionEnd => endHandler s
  | Op.reticleLoaded g => loadReticle s g
  | Op.modelLoaded g => loadModel s g

/-- Run a sequence of events. -/
def runOps (s : CoreState) (ops : List Op) : CoreState :=
  ops.foldl step s

/-- The marker's visibility flag: false while the reticle is unloaded. -/
def markerVisible (s : CoreState) : Bool :=
  match s.reticle with
  | some r => r.visible
  | none => false

/-! Concrete states and poses used by witnesses and counterexamples. -/

/-- A freshly loaded reticle: invisible, at the origin, identity
orientation. -/
def reticleA : Object3D :=
  { visible := false, position := ⟨0, 0, 0⟩, quaternion := ⟨0, 0, 0, 1⟩ }

/-- A visible reticle at (1, 2, 3) with identity orientation. -/
def reticleB : Object3D :=
  { visible := true, position := ⟨1, 2, 3⟩, quaternion := ⟨0, 0, 0, 1⟩ }

/-- A loaded model template whose root orientation is not the
identity. -/
def modelB : Object3D :=
  { visible := true, position := ⟨0, 0, 0⟩, quaternion := ⟨1, 0, 0, 0⟩ }

/-- A state with the reticle loaded (invisible at the origin), the model
not yet loaded, nothing placed. -/
def stateA : CoreState :=
  { reticle := some reticleA,
    model := none, objectsPlaced := 0, scene := [SceneEntry.reticleRef],
    hitTestSource := true, ended := false, events := [] }

/-- A state with both assets loaded and the reticle visible at (1, 2, 3);
the model's orientation differs from the reticle's. -/
def stateB : CoreState :=
  { reticle := some reticleB,
    model := some modelB,
    objectsPlaced := 0, scene := [SceneEntry.reticleRef],
    hitTestSource := true, ended := false, events := [] }

/-- A state before either asset load has completed, with a hit-test
source available. -/
def stateC : CoreState :=
  { reticle := none,
    model := some { visible := true, position := ⟨0, 0, 0⟩,
                    quaternion := ⟨0, 0, 0, 1⟩ },
    objectsPlaced := 0, scene := [], hitTestSource := true,
    ended := false, events := [] }

/-- A hit pose at (4, 5, 6) with a non-identity orientation. -/
def poseT1 : XRRigidTransform :=
  { position := ⟨4, 5, 6⟩, orientation := ⟨0, 1, 0, 0⟩ }

/-- A second hit pose, at (7, 8, 9). -/
def poseT2 : XRRigidTransform :=
  { position := ⟨7, 8, 9⟩, orientation := ⟨0, 0, 1, 0⟩ }

/-! Helper lemmas shared by the claim theorems. -/

/-- Every handler only ever appends to the scene registry: `scene.add`
is the sole scene operation in `src/main.ts`, and nothing removes. -/
theorem step_scene_append (s : CoreState) (op : Op) :
    ∃ t, (step s op).scene = s.scene ++ t := by
  cases op with
  | frame f =>
    obtain ⟨vp, bl, vw, hit⟩ := f
    cases vp <;> cases bl <;> cases vw <;> cases hts : s.hitTestSource <;>
      cases hit <;> cases hr : s.reticle <;>
      exact ⟨[], by simp [step, onXRFrame, hts, hr]⟩
  | select =>
    cases hm : s.model with
    | none => exact ⟨[], by simp [step, onSelect, hm]⟩
    | some m =>
      cases hr : s.reticle with
      | none => exact ⟨[], by simp [step, onSelect, hm, hr]⟩
      | some r =>
        cases hv : r.visible with
        | false => exact ⟨[], by simp [step, onSelect, hm, hr, hv]⟩
        | true =>
          exact ⟨[SceneEntry.placed { m with position := r.position }],
            by simp [step, onSelect, hm, hr, hv]⟩
  | sessionEnd => exact ⟨[], by simp [step, endHandler]⟩
  | reticleLoaded g => exact ⟨[SceneEntry.reticleRef], by simp [step, loadReticle]⟩
  | modelLoaded g => exact ⟨[], by simp [step, loadModel]⟩

/-- No handler ever decreases `objectsPlaced`. -/
theorem step_counter_mono (s : CoreState) (op : Op) :
    s.objectsPlaced ≤ (step s op).objectsPlaced := by
  cases op with
  | frame f =>
    obtain ⟨vp, bl, vw, hit⟩ := f
    cases vp <;> cases bl <;> cases vw <;> cases hts : s.hitTestSource <;>
      cases hit <;> cases hr : s.reticle <;>
      simp [step, onXRFrame, hts, hr]
  | select =>
    cases hm : s.model <;> cases hr : s.reticle <;> simp_all [step, onSelect]
    split <;> simp
  | sessionEnd => simp [step, endHandler]
  | reticleLoaded g => simp [step, loadReticle]
  | modelLoaded g => simp [step, loadModel]

/-- Over any run, the scene registry at the start stays a prefix. -/
theorem runOps_scene_append (s : CoreState) (ops : List Op) :
    ∃ t, (runOps s ops).scene = s.scene ++ t := by
  induction ops generalizing s with
  | nil => exact ⟨[], by simp [runOps]⟩
  | cons op rest ih =>
    obtain ⟨t1, h1⟩ := step_scene_append s op
    obtain ⟨t2, h2⟩ := ih (step s op)
    exact ⟨t1 ++ t2, by simp [runOps] at h2 ⊢; rw [h2, h1, List.append_assoc]⟩

/-- Over any run, `objectsPlaced` never decreases. -/
theorem runOps_counter_mono (s : CoreState) (ops : List Op) :
    s.objectsPlaced ≤ (runOps s ops).objectsPlaced := by
  induction ops generalizing s with
  | nil => simp [runOps]
  | cons op rest ih =>
    calc s.objectsPlaced ≤ (step s op).objectsPlaced := step_counter_mono s op
      _ ≤ (runOps (step s op) rest).objectsPlaced := ih (step s op)
      _ = (runOps s (op :: rest)).objectsPlaced := by simp [runOps]

/-- C1: for every frame whose hit-test query cleanly produced a surface
estimate or none, after `onFrame(e)` the marker's visibility flag is
true if and only if the estimate is present, from any state in which the
reticle has loaded and a hit-test source exists. -/
theorem marker_visible_iff_estimate_present (s : CoreState)
    (e : Option XRRigidTransform)
    (hr : s.reticle.isSome = true) (hs : s.hitTestSource = true) :
    markerVisible (onFrame s e) = e.isSome := by
  cases hre : s.reticle with
  | none => simp [hre] at hr
  | some r =>
    cases e <;>
      simp [onFrame, onXRFrame, estimateFrame, markerVisible, hre, hs]

/-- C1 witness: on a concrete invisible-reticle state, a present
estimate makes the marker visible. -/
theorem marker_visible_iff_estimate_present_witness :
    stateA.reticle.isSome = true ∧ stateA.hitTestSource = true ∧
      markerVisible (onFrame stateA (some poseT1)) = (some poseT1).isSome :=
  ⟨by decide, by decide,
    marker_visible_iff_estimate_present stateA (some poseT1)
      (by decide) (by decide)⟩

/-- C4: when the model template is not loaded, or the marker is not
visible (in particular when the reticle itself is not loaded), the
select handler is a total no-op: the state — counter, scene registry and
event log included — is exactly unchanged. -/
theorem select_noop_when_not_ready (s : CoreState)
    (h : s.model = none ∨ markerVisible s = false) :
    onSelect s = s := by
  cases hm : s.model <;> cases hr : s.reticle <;>
    simp_all [onSelect, markerVisible]

/-- C4 witness: a select with the model loaded but the reticle unloaded
changes nothing. -/
theorem select_noop_when_not_ready_witness :
    (stateC.model = none ∨ markerVisible stateC = false) ∧
      onSelect stateC = stateC :=
  ⟨Or.inr (by decide),
    select_noop_when_not_ready stateC (Or.inr (by decide))⟩

/-- C7: the frame callback never touches the model template, the
placement counter, the scene registry or the session flag, whatever the
frame contains. -/
theorem frame_mutates_marker_only (s : CoreState) (f : XRFrameData) :
    (onXRFrame s f).model = s.model ∧
    (onXRFrame s f).objectsPlaced = s.objectsPlaced ∧
    (onXRFrame s f).scene = s.scene ∧
    (onXRFrame s f).ended = s.ended := by
  obtain ⟨vp, bl, vw, hit⟩ := f
  cases vp <;> cases bl <;> cases vw <;> cases hts : s.hitTestSource <;>
    cases hit <;> cases hr : s.reticle <;> simp [onXRFrame, hts, hr]

/-- C9: a frame whose hit-test query returned a result whose pose could
not be resolved in the reference space leaves the whole state — marker
visibility and transform included — exactly unchanged. -/
theorem frame_unresolved_pose_noop (s : CoreState) (f : XRFrameData)
    (h : f.hit = HitTestOutcome.unresolvedPose) :
    onXRFrame s f = s := by
  obtain ⟨vp, bl, vw, hit⟩ := f
  cases h
  cases vp <;> cases bl <;> cases vw <;> cases hts : s.hitTestSource <;>
    cases hr : s.reticle <;> simp [onXRFrame, hts, hr]

/-- C9 witness: an unresolved-pose frame on a concrete visible-reticle
state changes nothing. -/
theorem frame_unresolved_pose_noop_witness :
    (XRFrameData.mk true true true HitTestOutcome.unresolvedPose).hit =
        HitTestOutcome.unresolvedPose ∧
      onXRFrame stateB
        (XRFrameData.mk true true true HitTestOutcome.unresolvedPose) = stateB :=
  ⟨rfl, frame_unresolved_pose_noop stateB
    (XRFrameData.mk true true true HitTestOutcome.unresolvedPose) rfl⟩

/-- C10: until the reticle's asynchronous load completes, every frame —
whatever its estimate — leaves the state unchanged, and the select
handler is a silent no-op even with the model loaded. -/
theorem reticle_unloaded_noop (s : CoreState) (h : s.reticle = none) :
    (∀ f, onXRFrame s f = s) ∧ onSelect s = s := by
  constructor
  · intro f
    obtain ⟨vp, bl, vw, hit⟩ := f
    cases vp <;> cases bl <;> cases vw <;> cases hts : s.hitTestSource <;>
      cases hit <;> simp [onXRFrame, hts, h]
  · cases hm : s.model <;> simp [onSelect, h, hm]

/-- C10 witness: with the model loaded, a hit-test source available and
a resolved hit, a frame and a select both change nothing while the
reticle is unloaded. -/
theorem reticle_unloaded_noop_witness :
    stateC.reticle = none ∧
      onXRFrame stateC
        (XRFrameData.mk true true true (HitTestOutcome.resolved poseT1)) = stateC ∧
      onSelect stateC = stateC :=
  ⟨rfl,
    (reticle_unloaded_noop stateC rfl).1
      (XRFrameData.mk true true true (HitTestOutcome.resolved poseT1)),
    (reticle_unloaded_noop stateC rfl).2⟩

/-- C2 counterexample: on a concrete frame whose estimate carries a
non-identity orientation, the marker's orientation after `onFrame` is
not the estimate's — the code copies only the position components
(lines 160-164), so the transform is not an identity copy of the full
rigid pose. -/
theorem marker_full_pose_copy_counterexample :
    (onFrame stateB (some poseT1)).reticle.map Object3D.quaternion ≠
      some poseT1.orientation := by decide

/-- C2 amended: after `onFrame` with a present estimate, the marker
becomes visible and its position equals the estimate's position exactly
(identity copy of the position components); its orientation is left at
whatever it was before the call. -/
theorem marker_position_copied_orientation_kept (s : CoreState)
    (r : Object3D) (t : XRRigidTransform)
    (hr : s.reticle = some r) (hs : s.hitTestSource = true) :
    (onFrame s (some t)).reticle =
      some { visible := true, position := t.position,
             quaternion := r.quaternion } := by
  simp [onFrame, onXRFrame, estimateFrame, hr, hs]

/-- C2 witness: the amended statement at a concrete state and pose. -/
theorem marker_position_copied_orientation_kept_witness :
    stateB.reticle = some reticleB ∧ stateB.hitTestSource = true ∧
      (onFrame stateB (some poseT1)).reticle =
        some { visible := true, position := poseT1.position,
               quaternion := reticleB.quaternion } :=
  ⟨rfl, rfl,
    marker_position_copied_orientation_kept stateB reticleB poseT1 rfl rfl⟩

/-- C3 counterexample: on a concrete valid select, exactly one instance
is placed at the marker's position, but its orientation is the model
template's, which differs from the marker's orientation at call time —
so the instance's transform is not equal to `Marker.transform`. -/
theorem placed_instance_full_pose_counterexample :
    (onSelect stateB).objectsPlaced = 1 ∧
    (onSelect stateB).scene =
      [SceneEntry.reticleRef,
       SceneEntry.placed { visible := true, position := ⟨1, 2, 3⟩,
                           quaternion := ⟨1, 0, 0, 0⟩ }] ∧
    stateB.reticle.map Object3D.quaternion ≠ some (Quat.mk 1 0 0 0) := by
  decide

/-- C3 amended: a select with the model loaded and the marker visible
increments the counter by exactly 1 and registers exactly one new
instance; the instance's position is a value snapshot of the marker's
position at call time (its orientation is the template's), and the
registered instance persists unchanged in the scene through any later
sequence of operations — later marker mutations cannot affect it. -/
theorem select_places_one_snapshot (s : CoreState) (m r : Object3D)
    (hm : s.model = some m) (hr : s.reticle = some r)
    (hv : r.visible = true) :
    (onSelect s).objectsPlaced = s.objectsPlaced + 1 ∧
    (onSelect s).scene =
      s.scene ++ [SceneEntry.placed { m with position := r.position }] ∧
    ∀ ops : List Op, ∃ t,
      (runOps (onSelect s) ops).scene =
        s.scene ++ SceneEntry.placed { m with position := r.position } :: t := by
  refine ⟨by simp [onSelect, hm, hr, hv], by simp [onSelect, hm, hr, hv], ?_⟩
  intro ops
  obtain ⟨t, ht⟩ := runOps_scene_append (onSelect s) ops
  refine ⟨t, ?_⟩
  rw [ht]
  simp [onSelect, hm, hr, hv]

/-- C3 witness: the amended statement at a concrete state, with the
persistence conjunct instantiated by a later frame that moves the
marker elsewhere. -/
theorem select_places_one_snapshot_witness :
    stateB.model = some modelB ∧ stateB.reticle = some reticleB ∧
    reticleB.visible = true ∧
    (onSelect stateB).objectsPlaced = stateB.objectsPlaced + 1 ∧
    (runOps (onSelect stateB) [Op.frame (estimateFrame (some poseT2))]).scene =
      stateB.scene ++
        SceneEntry.placed { modelB with position := reticleB.position } ::
          Classical.choose
            ((select_places_one_snapshot stateB modelB reticleB rfl rfl rfl).2.2
              [Op.frame (estimateFrame (some poseT2))]) :=
  ⟨rfl, rfl, rfl,
    (select_places_one_snapshot stateB modelB reticleB rfl rfl rfl).1,
    Classical.choose_spec
      ((select_places_one_snapshot stateB modelB reticleB rfl rfl rfl).2.2
        [Op.frame (estimateFrame (some poseT2))])⟩

/-- C5: `objectsPlaced` never decreases over any sequence of operations,
and two consecutive selects with no frame in between, with the model
loaded and the marker visible at some position, raise the counter by
exactly 2 and register two instances at that same position. -/
theorem counter_monotone_double_select (s : CoreState) (m r : Object3D)
    (hm : s.model = some m) (hr : s.reticle = some r)
    (hv : r.visible = true) :
    (∀ s2 : CoreState, ∀ ops : List Op,
      s2.objectsPlaced ≤ (runOps s2 ops).objectsPlaced) ∧
    (onSelect (onSelect s)).objectsPlaced = s.objectsPlaced + 2 ∧
    (onSelect (onSelect s)).scene = s.scene ++
      [SceneEntry.placed { m with position := r.position },
       SceneEntry.placed { m with position := r.position }] := by
  refine ⟨fun s2 ops => runOps_counter_mono s2 ops, ?_, ?_⟩ <;>
    simp [onSelect, hm, hr, hv]

/-- C5 witness: the double-select scenario at a concrete state, plus a
concrete run (select, frame, select) whose counter is at least the
initial one. -/
theorem counter_monotone_double_select_witness :
    stateB.model = some modelB ∧ stateB.reticle = some reticleB ∧
    reticleB.visible = true ∧
    (onSelect (onSelect stateB)).objectsPlaced = stateB.objectsPlaced + 2 ∧
    stateB.objectsPlaced ≤
      (runOps stateB
        [Op.select, Op.frame (estimateFrame none), Op.select]).objectsPlaced :=
  ⟨rfl, rfl, rfl,
    (counter_monotone_double_select stateB modelB reticleB rfl rfl rfl).2.1,
    (counter_monotone_double_select stateB modelB reticleB rfl rfl rfl).1
      stateB [Op.select, Op.frame (estimateFrame none), Op.select]⟩

/-- C6: with the reticle loaded and a hit-test source available, the
"surface acquired" log is emitted by a frame exactly when the marker was
invisible and the estimate is present (the false-to-true transition),
and the "surface lost" log exactly when the marker was visible and the
estimate is absent (the true-to-false transition); and on the estimate
sequence [absent, present, present, absent] from an invisible marker the
visibility sequence is [false, true, true, false] and each event fires
exactly once. -/
theorem surface_events_on_transitions (s : CoreState) (r : Object3D)
    (hr : s.reticle = some r) (hs : s.hitTestSource = true) :
    (∀ e : Option XRRigidTransform,
      (onFrame s e).events = s.events ++
        (match e, r.visible with
         | some _, true => []
         | some _, false => [LogEvent.surfaceAcquired]
         | none, true => [LogEvent.surfaceLost]
         | none, false => [])) ∧
    (r.visible = false → ∀ t1 t2 : XRRigidTransform,
      markerVisible (onFrame s none) = false ∧
      markerVisible (onFrame (onFrame s none) (some t1)) = true ∧
      markerVisible
        (onFrame (onFrame (onFrame s none) (some t1)) (some t2)) = true ∧
      markerVisible
        (onFrame (onFrame (onFrame (onFrame s none) (some t1)) (some t2))
          none) = false ∧
      (onFrame (onFrame (onFrame (onFrame s none) (some t1)) (some t2))
          none).events =
        s.events ++ [LogEvent.surfaceAcquired, LogEvent.surfaceLost]) := by
  constructor
  · intro e
    cases e <;> cases hv : r.visible <;>
      simp [onFrame, onXRFrame, estimateFrame, hr, hs, hv]
  · intro hv t1 t2
    refine ⟨?_, ?_, ?_, ?_, ?_⟩ <;>
      simp [onFrame, onXRFrame, estimateFrame, markerVisible, hr, hs, hv]

/-- C6 witness: the scenario at a concrete state and concrete poses. -/
theorem surface_events_on_transitions_witness :
    stateA.reticle = some reticleA ∧ stateA.hitTestSource = true ∧
    reticleA.visible = false ∧
    (onFrame (onFrame (onFrame (onFrame stateA none) (some poseT1))
        (some poseT2)) none).events =
      stateA.events ++ [LogEvent.surfaceAcquired, LogEvent.surfaceLost] :=
  ⟨rfl, rfl, rfl,
    ((surface_events_on_transitions stateA reticleA rfl rfl).2 rfl
      poseT1 poseT2).2.2.2.2⟩

/-- C8 counterexample: the end handler installs no guard, so a frame
delivered after the session-end signal still mutates the marker: from a
concrete post-end state, a frame with a present estimate changes the
reticle. -/
theorem post_end_frame_still_mutates :
    (onFrame (endHandler stateA) (some poseT1)).reticle ≠
      (endHandler stateA).reticle := by decide

/-- C8 amended: the source's end handler only logs and touches the DOM;
neither the frame callback nor the select handler consults any
session-ended flag, so both behave on a post-end state exactly as they
would have without the end signal — post-end quiescence is delegated to
the platform's guarantee of delivering no further frame or select
callbacks, not enforced by this code. -/
theorem handlers_ignore_session_end (s : CoreState) (f : XRFrameData) :
    (onXRFrame (endHandler s) f).reticle = (onXRFrame s f).reticle ∧
    (onXRFrame (endHandler s) f).model = (onXRFrame s f).model ∧
    (onXRFrame (endHandler s) f).objectsPlaced =
      (onXRFrame s f).objectsPlaced ∧
    (onXRFrame (endHandler s) f).scene = (onXRFrame s f).scene ∧
    (onSelect (endHandler s)).reticle = (onSelect s).reticle ∧
    (onSelect (endHandler s)).model = (onSelect s).model ∧
    (onSelect (endHandler s)).objectsPlaced = (onSelect s).objectsPlaced ∧
    (onSelect (endHandler s)).scene = (onSelect s).scene := by
  obtain ⟨vp, bl, vw, hit⟩ := f
  refine ⟨?_, ?_, ?_, ?_, ?_, ?_, ?_, ?_⟩ <;>
    cases vp <;> cases bl <;> cases vw <;> cases hts : s.hitTestSource <;>
      cases hit <;> cases hm : s.model <;> cases hr : s.reticle <;>
      simp [onXRFrame, onSelect, endHandler, hts, hm, hr] <;>
      split <;> simp [hm, hr]
